import Mathlib

/-!
Verification of the price-resolution logic of `crypto_utils`
(`src/crypto_utils/price.py`, with collaborators from `exceptions.py` and
`http_utils.py`).

Modelling conventions:
- Network interactions are modelled by passing the sequence of transport
  outcomes (the script of responses the remote endpoint would produce) as an
  explicit argument; each attempted request consumes the next element.
- Times are whole seconds as integers (the Python code converts `datetime`
  values with `timestamp()`, and the claims use whole-second inputs);
  the aggregator reports timestamps in milliseconds, kept as integers.
- JSON float values and Python floats are modelled as rationals (`Rat`);
  every value the claims mention is an exact decimal.
- Python exceptions become constructors of explicit error types; an
  exception raised and not caught becomes an `Except.error` result.
-/

/-- Python exceptions that can arise inside a `try` block of the price
resolvers and then be wrapped by an outer handler. `requestError` is
`exceptions.RequestError(status_code)` raised by `http_utils.request`;
`indexError` is the builtin `IndexError` from indexing an empty or too-short
list; `valueError` is the builtin `ValueError` from `float()` on a
non-numeric string; `missingDataCause` is `exceptions.MissingDataError`
raised inside `UniswapPriceProvider._get_price_from_subgraph`;
`transportError` is a failure of the gql client execution. -/
inductive PyCause
  | requestError (status : Nat)
  | indexError
  | valueError (s : String)
  | missingDataCause
  | transportError (desc : String)
  deriving DecidableEq

/-- Models the Python `str(exception)` description that
`UniswapPriceProvider.get_usd_value_of_transaction` attaches when wrapping
an exception (`raise exceptions.CantExtractUsdValueError(str(exception))`).
The exact rendering of each cause is a modelling choice; what matters for
the claims is that the original cause determines the attached description. -/
def PyCause.describe : PyCause → String
  | .requestError status => "RequestError status " ++ toString status
  | .indexError => "list index out of range"
  | .valueError s => "could not convert string to float: " ++ s
  | .missingDataCause => "MissingDataError"
  | .transportError desc => desc

/-- The error taxonomy of `src/crypto_utils/exceptions.py`, restricted to the
kinds the price resolvers can surface to a caller. `missingData` carries the
optional original cause (`BinancePriceProvider` raises
`MissingDataError(e)`, `CoingeckoPriceProvider` raises `MissingDataError()`
with no argument). `cantFindTokenPrice` carries the contract address and the
transport status code that the Python code interpolates into its message
string. `cantExtractUsdValue` carries the wrapped description of the
original error. -/
inductive PriceError
  | missingData (cause : Option PyCause)
  | cantFindTokenPrice (address : String) (status : Nat)
  | cantExtractUsdValue (desc : String)
  deriving DecidableEq

deriving instance DecidableEq for Except

/-- Modelled from the spec: the module `crypto_utils.enums` imported by
`price.py` is not under `src/`; the spec declares a `Blockchain`
enumeration with exactly one member (ETHEREUM, the single supported
chain). -/
inductive Blockchain
  | ETHEREUM
  deriving DecidableEq

/-- Embeds `CoingeckoPriceProvider._get_blockchain_id`. The Python `match`
statement has a single case arm returning "ethereum" for ETHEREUM; a value
matched by no arm would fall off the end of the function and produce
`None`, which the `Option` result type mirrors. -/
def CoingeckoPriceProvider.get_blockchain_id : Blockchain → Option String
  | .ETHEREUM => some "ethereum"

/-- The JSON body returned by the aggregator time-series endpoint:
`{ "prices": [[timestamp_ms, price], ...] }`. -/
structure PriceResponse where
  prices : List (Int × Rat)
  deriving DecidableEq

/-- Outcome of one call to `http_utils.request`: on HTTP 200 the decoded
JSON body is returned, on any other status `exceptions.RequestError`
carrying the status code is raised. -/
inductive TransportOutcome
  | ok (resp : PriceResponse)
  | err (status : Nat)
  deriving DecidableEq

/-- Embeds `CoingeckoPriceProvider._request_price_json`. The `while True`
loop issues the request; on `RequestError` with status 429 it sleeps 3
seconds and retries, on any other status it raises
`CantFindTokenPriceError` carrying the contract address and the status
code, and on success it returns the JSON body. The first component collects
the durations of the sleeps performed, in order; the second is `none` when
the supplied script is exhausted without the loop terminating (the retry
loop has no cap, so an all-429 script leaves it still running). -/
def CoingeckoPriceProvider.request_price_json (contract_address : String) :
    List TransportOutcome → List Nat × Option (Except PriceError PriceResponse)
  | [] => ([], none)
  | .ok resp :: _ => ([], some (.ok resp))
  | .err status :: rest =>
    if status = 429 then
      let r := CoingeckoPriceProvider.request_price_json contract_address rest
      (3 :: r.1, r.2)
    else
      ([], some (.error (.cantFindTokenPrice contract_address status)))

/-- Observable result of one call to
`CoingeckoPriceProvider.get_price_of_contract_in_usd`: the chain slug and
time window used to build the request URL, the backoff sleeps performed,
whether the staleness diagnostic line was printed, and the returned value
(`none` when the retry loop never terminated on the given script; the inner
`Option Rat` mirrors the declared Python return type `float | None`). -/
structure CoingeckoCall where
  chainSlug : Option String
  fromTs : Int
  toTs : Int
  sleeps : List Nat
  staleDiag : Bool
  outcome : Option (Except PriceError (Option Rat))
  deriving DecidableEq

/-- Embeds `CoingeckoPriceProvider.get_price_of_contract_in_usd`: maps the
blockchain to its slug, computes the lookback window
`[at_time - 1 day, at_time]`, requests the series (with the retry loop of
`_request_price_json`), raises `MissingDataError` when the `prices` list is
empty, otherwise takes the last point, prints a diagnostic when
`price_time - at_time` exceeds one hour (the timestamp is divided by 1000
to convert milliseconds to seconds), and returns the price component of the
last point. -/
def CoingeckoPriceProvider.get_price_of_contract_in_usd
    (contract_address : String) (at_time : Int) (blockchain : Blockchain)
    (script : List TransportOutcome) : CoingeckoCall :=
  let blockchain_id := CoingeckoPriceProvider.get_blockchain_id blockchain
  let start_timestamp := at_time - 86400
  let req := CoingeckoPriceProvider.request_price_json contract_address script
  match req.2 with
  | none => ⟨blockchain_id, start_timestamp, at_time, req.1, false, none⟩
  | some (.error e) =>
    ⟨blockchain_id, start_timestamp, at_time, req.1, false, some (.error e)⟩
  | some (.ok resp) =>
    match resp.prices.getLast? with
    | none =>
      ⟨blockchain_id, start_timestamp, at_time, req.1, false,
        some (.error (.missingData none))⟩
    | some last_price_array =>
      let price_time : Rat := (last_price_array.1 : Rat) / 1000
      let time_diff : Rat := price_time - (at_time : Rat)
      ⟨blockchain_id, start_timestamp, at_time, req.1,
        decide (time_diff > 3600), some (.ok (some last_price_array.2))⟩

/-- Models Python `str.upper` on the character data of the string. -/
def pyUpper (s : String) : String := ⟨s.data.map Char.toUpper⟩

/-- Reads a non-empty run of decimal digits as a natural number,
accumulating left to right; `none` on any non-digit character. -/
def digitsToNatAux : List Char → Nat → Option Nat
  | [], acc => some acc
  | c :: rest, acc =>
    if c.isDigit then digitsToNatAux rest (acc * 10 + (c.toNat - 48)) else none

/-- Digit run to natural number; empty input is rejected. -/
def digitsToNat (cs : List Char) : Option Nat :=
  match cs with
  | [] => none
  | _ => digitsToNatAux cs 0

/-- Splits character data at every dot, keeping empty groups. -/
def splitDot : List Char → List (List Char)
  | [] => [[]]
  | c :: rest =>
    match splitDot rest with
    | [] => [[c]]
    | g :: gs => if c = '.' then [] :: g :: gs else (c :: g) :: gs

/-- Syntactic part of parsing a decimal literal: the whole part, the
fractional part and the number of fractional digits, or `none` when the
string is not a decimal literal. -/
def parseDecimalParts (s : String) : Option (Nat × Nat × Nat) :=
  match splitDot s.data with
  | [w] => (digitsToNat w).map (fun n => (n, 0, 0))
  | [w, f] =>
    match digitsToNat w, digitsToNat f with
    | some wn, some fn => some (wn, fn, f.length)
    | _, _ => none
  | _ => none

/-- Models Python `float(s)` on the decimal strings the price APIs return:
an optional fractional part after one dot. Returns `none` when the string
is not such a decimal literal (the Python call would raise `ValueError`). -/
def parseDecimal (s : String) : Option Rat :=
  (parseDecimalParts s).map
    (fun p => (p.1 : Rat) + (p.2.1 : Rat) / (10 : Rat) ^ p.2.2)

/-- One swap record of the DEX index response
`{ "swaps": [{ "amountUSD": string, "transaction": {"id": string} }] }`. -/
structure Swap where
  amountUSD : String
  txId : String
  deriving DecidableEq

/-- Outcome of executing the subgraph query in
`UniswapPriceProvider._get_price_from_subgraph`: either the gql client
execution fails, or it yields a JSON object that may or may not contain the
"swaps" key, with the list of swap records when it does. -/
inductive SubgraphOutcome
  | execError (desc : String)
  | result (hasSwapsKey : Bool) (swaps : List Swap)
  deriving DecidableEq

/-- Embeds `UniswapPriceProvider._get_price_from_subgraph`: raises
`MissingDataError` when "swaps" is absent from the JSON result, indexes
`swaps[0]` (an `IndexError` when the list is empty), and converts the
`amountUSD` field with `float` (a `ValueError` when it does not parse). -/
def UniswapPriceProvider.get_price_from_subgraph :
    SubgraphOutcome → Except PyCause Rat
  | .execError desc => .error (.transportError desc)
  | .result false _ => .error .missingDataCause
  | .result true [] => .error .indexError
  | .result true (only_swap :: _) =>
    match parseDecimal only_swap.amountUSD with
    | some price => .ok price
    | none => .error (.valueError only_swap.amountUSD)

/-- Embeds `UniswapPriceProvider.get_usd_value_of_transaction`: any
exception raised by `_get_price_from_subgraph` is caught and re-raised as
`CantExtractUsdValueError(str(exception))`. -/
def UniswapPriceProvider.get_usd_value_of_transaction
    (o : SubgraphOutcome) : Except PriceError Rat :=
  match UniswapPriceProvider.get_price_from_subgraph o with
  | .ok price => .ok price
  | .error cause => .error (.cantExtractUsdValue cause.describe)

/-- The two protocol versions the composite resolver tries, newest first. -/
inductive UniswapVersion
  | v3
  | v2
  deriving DecidableEq

/-- Embeds `UniswapTransactionValueUsdProvider.get_usd_value_of_transaction`:
try the v3 provider; on `CantExtractUsdValueError` log at debug level and
fall back to the v2 provider, whose result (success or failure) is
returned. Each provider is given the outcome its subgraph endpoint would
produce; the first component records which versions were attempted, in
order. -/
def UniswapTransactionValueUsdProvider.get_usd_value_of_transaction
    (v3Outcome v2Outcome : SubgraphOutcome) :
    List UniswapVersion × Except PriceError Rat :=
  match UniswapPriceProvider.get_usd_value_of_transaction v3Outcome with
  | .ok price => ([.v3], .ok price)
  | .error _ =>
    ([.v3, .v2], UniswapPriceProvider.get_usd_value_of_transaction v2Outcome)

/-- The query parameters `BinancePriceProvider.get_price_of_token` sends to
the CEX candle endpoint. -/
structure BinanceRequest where
  symbol : String
  interval : String
  startTime : Int
  endTime : Int
  limit : Nat
  deriving DecidableEq

/-- Outcome of the candle request: decoded JSON (an array of candle arrays,
each candle an array whose 5th element is the close price string) or a
transport failure with its status code. -/
inductive BinanceOutcome
  | ok (candles : List (List String))
  | err (status : Nat)
  deriving DecidableEq

/-- Embeds `BinancePriceProvider.get_price_of_token`: builds the request
(upper-cased symbol with the fixed USDT suffix, interval "1m", the window
`[at_time, at_time + 1 minute]` in milliseconds, limit 1), indexes the
first candle and its 5th element, converts it with `float`, and wraps any
exception in `MissingDataError(e)` carrying the original cause. -/
def BinancePriceProvider.get_price_of_token (symbol : String) (at_time : Int)
    (outcome : BinanceOutcome) : BinanceRequest × Except PriceError Rat :=
  let req : BinanceRequest :=
    { symbol := pyUpper symbol ++ "USDT", interval := "1m",
      startTime := at_time * 1000, endTime := (at_time + 60) * 1000,
      limit := 1 }
  let res : Except PriceError Rat :=
    match outcome with
    | .err status => .error (.missingData (some (.requestError status)))
    | .ok [] => .error (.missingData (some .indexError))
    | .ok (single_candle_info :: _) =>
      match single_candle_info[4]? with
      | none => .error (.missingData (some .indexError))
      | some close_str =>
        match parseDecimal close_str with
        | some close_price => .ok close_price
        | none => .error (.missingData (some (.valueError close_str)))
  (req, res)

/-! ## Theorems -/

/-- Behaviour of the retry loop on a run of rate-limit outcomes: each 429
adds one sleep of 3 seconds and the loop continues on the rest of the
script. -/
theorem request_price_json_replicate_429 (addr : String) (n : Nat)
    (rest : List TransportOutcome) :
    CoingeckoPriceProvider.request_price_json addr
      (List.replicate n (.err 429) ++ rest)
      = (List.replicate n 3
          ++ (CoingeckoPriceProvider.request_price_json addr rest).1,
        (CoingeckoPriceProvider.request_price_json addr rest).2) := by
  induction n with
  | zero => simp
  | succ n ih =>
    simp [List.replicate_succ, CoingeckoPriceProvider.request_price_json, ih]

/-- The retry loop either never terminates on the given script, or returns
a response from the script, or raises `CantFindTokenPriceError` carrying
the contract address and some status code. -/
theorem request_price_json_cases (addr : String)
    (script : List TransportOutcome) :
    (CoingeckoPriceProvider.request_price_json addr script).2 = none ∨
    (∃ resp, (CoingeckoPriceProvider.request_price_json addr script).2
      = some (.ok resp)) ∨
    ∃ s, (CoingeckoPriceProvider.request_price_json addr script).2
      = some (.error (.cantFindTokenPrice addr s)) := by
  induction script with
  | nil => exact .inl rfl
  | cons head rest ih =>
    cases head with
    | ok resp => exact .inr (.inl ⟨resp, rfl⟩)
    | err s =>
      by_cases h : s = 429
      · subst h
        simpa [CoingeckoPriceProvider.request_price_json] using ih
      · exact .inr (.inr ⟨s, by
          simp [CoingeckoPriceProvider.request_price_json, h]⟩)

/-- C1: when the aggregator responds successfully, a non-empty `prices`
series makes `get_price_of_contract_in_usd` return the price component of
the LAST point of the series, and an empty `prices` list makes it raise
`MissingDataError`. -/
theorem coingecko_last_point_selection (addr : String) (t : Int)
    (b : Blockchain) (resp : PriceResponse) :
    (resp.prices = [] →
      (CoingeckoPriceProvider.get_price_of_contract_in_usd addr t b
        [.ok resp]).outcome = some (.error (.missingData none))) ∧
    ∀ ps q, resp.prices = ps ++ [q] →
      (CoingeckoPriceProvider.get_price_of_contract_in_usd addr t b
        [.ok resp]).outcome = some (.ok (some q.2)) := by
  constructor
  · intro h
    simp [CoingeckoPriceProvider.get_price_of_contract_in_usd,
      CoingeckoPriceProvider.request_price_json, h]
  · intro ps q h
    simp [CoingeckoPriceProvider.get_price_of_contract_in_usd,
      CoingeckoPriceProvider.request_price_json, h]

/-- Witness for C1: on the empty series the call raises
`MissingDataError`; on a 3-point series whose last price 7 is NOT the
maximum (the middle point has price 9), the call returns 7 — last-element
selection, not max-element selection. -/
theorem coingecko_last_point_selection_witness :
    (CoingeckoPriceProvider.get_price_of_contract_in_usd "0xA" 5000
      .ETHEREUM [.ok ⟨[]⟩]).outcome = some (.error (.missingData none)) ∧
    (CoingeckoPriceProvider.get_price_of_contract_in_usd "0xA" 5000
      .ETHEREUM [.ok ⟨[(1000, 5), (2000, 9), (3000, 7)]⟩]).outcome
      = some (.ok (some 7)) :=
  ⟨(coingecko_last_point_selection "0xA" 5000 .ETHEREUM ⟨[]⟩).1 rfl,
    (coingecko_last_point_selection "0xA" 5000 .ETHEREUM
      ⟨[(1000, 5), (2000, 9), (3000, 7)]⟩).2
      [(1000, 5), (2000, 9)] (3000, 7) rfl⟩

/-- C2: a script of n rate-limit outcomes followed by a success makes
`get_price_of_contract_in_usd` sleep 3 seconds once per rate-limit outcome
and then return the last price of the successful response, for EVERY n (the
retry has no cap); in particular the script [429, 429, 200] yields exactly
the two sleeps [3, 3] and then the successful price. -/
theorem coingecko_rate_limit_retry (addr : String) (t : Int)
    (b : Blockchain) (n : Nat) (ps : List (Int × Rat)) (q : Int × Rat) :
    ((CoingeckoPriceProvider.get_price_of_contract_in_usd addr t b
        (List.replicate n (.err 429) ++ [.ok ⟨ps ++ [q]⟩])).sleeps
        = List.replicate n 3 ∧
      (CoingeckoPriceProvider.get_price_of_contract_in_usd addr t b
        (List.replicate n (.err 429) ++ [.ok ⟨ps ++ [q]⟩])).outcome
        = some (.ok (some q.2))) ∧
    (CoingeckoPriceProvider.get_price_of_contract_in_usd addr t b
        [.err 429, .err 429, .ok ⟨ps ++ [q]⟩]).sleeps = [3, 3] ∧
    (CoingeckoPriceProvider.get_price_of_contract_in_usd addr t b
        [.err 429, .err 429, .ok ⟨ps ++ [q]⟩]).outcome
        = some (.ok (some q.2)) := by
  refine ⟨⟨?_, ?_⟩, ?_, ?_⟩ <;>
    simp [CoingeckoPriceProvider.get_price_of_contract_in_usd,
      request_price_json_replicate_429,
      CoingeckoPriceProvider.request_price_json]

/-- C3: a transport failure whose status is not 429 makes
`get_price_of_contract_in_usd` fail immediately with
`CantFindTokenPriceError` carrying the contract address and that status,
with zero backoff sleeps, whatever the rest of the script holds. -/
theorem coingecko_non_rate_limit_fails_immediately (addr : String)
    (t : Int) (b : Blockchain) (s : Nat) (hs : s ≠ 429)
    (rest : List TransportOutcome) :
    (CoingeckoPriceProvider.get_price_of_contract_in_usd addr t b
      (.err s :: rest)).sleeps = [] ∧
    (CoingeckoPriceProvider.get_price_of_contract_in_usd addr t b
      (.err s :: rest)).outcome
      = some (.error (.cantFindTokenPrice addr s)) := by
  constructor <;>
    simp [CoingeckoPriceProvider.get_price_of_contract_in_usd,
      CoingeckoPriceProvider.request_price_json, hs]

/-- Witness for C3: a 404 response fails at once with
`CantFindTokenPriceError` carrying the address and 404, and no sleeps. -/
theorem coingecko_non_rate_limit_fails_immediately_witness :
    (CoingeckoPriceProvider.get_price_of_contract_in_usd "0xA" 5000
      .ETHEREUM [.err 404]).sleeps = [] ∧
    (CoingeckoPriceProvider.get_price_of_contract_in_usd "0xA" 5000
      .ETHEREUM [.err 404]).outcome
      = some (.error (.cantFindTokenPrice "0xA" 404)) :=
  coingecko_non_rate_limit_fails_immediately "0xA" 5000 .ETHEREUM 404
    (by decide) []

/-- C4: the chain-slug mapping of the contract-price resolver is total
over the declared `Blockchain` enumeration — every declared member maps to
the slug "ethereum", so no member reaches the unmapped fall-through (which
would yield `None` in the Python code). -/
theorem blockchain_slug_mapping_total (b : Blockchain) :
    CoingeckoPriceProvider.get_blockchain_id b = some "ethereum" := by
  cases b
  rfl

/-- C7 (divergence evidence): with `at_time = 7200` and a single data point
at timestamp 0 ms — the last point is 2 hours BEFORE `at_time`, so the
absolute staleness exceeds 1 hour — the call still returns the price, but
the staleness diagnostic is NOT emitted: the code compares the signed
difference `price_time - at_time` (here -7200 seconds) against one hour,
not its absolute value as the spec states. -/
theorem coingecko_staleness_diag_not_emitted_for_old_point :
    (CoingeckoPriceProvider.get_price_of_contract_in_usd "0xA" 7200
      .ETHEREUM [.ok ⟨[(0, 10)]⟩]).outcome = some (.ok (some 10)) ∧
    (CoingeckoPriceProvider.get_price_of_contract_in_usd "0xA" 7200
      .ETHEREUM [.ok ⟨[(0, 10)]⟩]).staleDiag = false ∧
    |((0 : Int) : Rat) / 1000 - ((7200 : Int) : Rat)| > 3600 := by
  refine ⟨by decide, ?_, ?_⟩
  · show decide ((((0 : Int) : Rat) / 1000 - ((7200 : Int) : Rat)) > 3600)
      = false
    rw [decide_eq_false_iff_not]
    norm_num
  · rw [abs_sub_comm]
    norm_num

/-- C10: every terminating execution of `get_price_of_contract_in_usd`
either succeeds with `some` price (the `None` branch of the declared
return type `float | None` is unreachable) or raises one of the typed
errors `CantFindTokenPriceError` (carrying the address) or
`MissingDataError`. -/
theorem coingecko_never_returns_none (addr : String) (t : Int)
    (b : Blockchain) (script : List TransportOutcome) :
    (∀ v, (CoingeckoPriceProvider.get_price_of_contract_in_usd addr t b
        script).outcome = some (.ok v) → ∃ p : Rat, v = some p) ∧
    ∀ e, (CoingeckoPriceProvider.get_price_of_contract_in_usd addr t b
        script).outcome = some (.error e) →
      (∃ s, e = .cantFindTokenPrice addr s) ∨ e = .missingData none := by
  rcases request_price_json_cases addr script with h | ⟨resp, h⟩ | ⟨s, h⟩
  · constructor
    · intro v hv
      simp [CoingeckoPriceProvider.get_price_of_contract_in_usd, h] at hv
    · intro e he
      simp [CoingeckoPriceProvider.get_price_of_contract_in_usd, h] at he
  · cases hl : resp.prices.getLast? with
    | none =>
      constructor
      · intro v hv
        simp [CoingeckoPriceProvider.get_price_of_contract_in_usd, h, hl]
          at hv
      · intro e he
        simp [CoingeckoPriceProvider.get_price_of_contract_in_usd, h, hl]
          at he
        exact .inr he.symm
    | some q =>
      constructor
      · intro v hv
        simp [CoingeckoPriceProvider.get_price_of_contract_in_usd, h, hl]
          at hv
        exact ⟨q.2, hv.symm⟩
      · intro e he
        simp [CoingeckoPriceProvider.get_price_of_contract_in_usd, h, hl]
          at he
  · constructor
    · intro v hv
      simp [CoingeckoPriceProvider.get_price_of_contract_in_usd, h] at hv
    · intro e he
      simp [CoingeckoPriceProvider.get_price_of_contract_in_usd, h] at he
      exact .inl ⟨s, he.symm⟩

/-- Witness for C10: at a concrete successful call the returned value is
`some` price. -/
theorem coingecko_never_returns_none_witness :
    ∃ p : Rat, some (10 : Rat) = some p :=
  (coingecko_never_returns_none "0xA" 5000 .ETHEREUM
    [.ok ⟨[(1000, 10)]⟩]).1 (some 10) (by decide)

/-- C5: the composite swap-value resolver attempts v3 first; when the v3
lookup succeeds it returns that value without attempting v2, and when the
v3 lookup fails (with `CantExtractUsdValueError`, the only failure kind it
produces) it attempts v2 and returns exactly the v2 result. -/
theorem uniswap_composite_fallback (o3 o2 : SubgraphOutcome) :
    (∀ v, UniswapPriceProvider.get_usd_value_of_transaction o3 = .ok v →
      UniswapTransactionValueUsdProvider.get_usd_value_of_transaction o3 o2
        = ([.v3], .ok v)) ∧
    ∀ e, UniswapPriceProvider.get_usd_value_of_transaction o3 = .error e →
      UniswapTransactionValueUsdProvider.get_usd_value_of_transaction o3 o2
        = ([.v3, .v2],
          UniswapPriceProvider.get_usd_value_of_transaction o2) := by
  constructor
  · intro v h
    simp [UniswapTransactionValueUsdProvider.get_usd_value_of_transaction, h]
  · intro e h
    simp [UniswapTransactionValueUsdProvider.get_usd_value_of_transaction, h]

/-- Witness for C5: v3 yields an empty swaps list (its lookup fails), v2
yields a swap with amountUSD "123.45"; the composite attempts v3 then v2
and returns exactly 123.45. -/
theorem uniswap_composite_fallback_witness :
    UniswapTransactionValueUsdProvider.get_usd_value_of_transaction
      (.result true []) (.result true [⟨"123.45", "0xtx"⟩])
      = ([.v3, .v2], .ok (12345 / 100 : Rat)) := by
  have h := (uniswap_composite_fallback (.result true [])
      (.result true [⟨"123.45", "0xtx"⟩])).2
    (.cantExtractUsdValue (PyCause.describe .indexError)) rfl
  rw [h]
  have hp : parseDecimalParts "123.45" = some (123, 45, 2) := by decide
  simp [UniswapPriceProvider.get_usd_value_of_transaction,
    UniswapPriceProvider.get_price_from_subgraph, parseDecimal, hp]
  norm_num

/-- C6: when both version lookups fail, the composite resolver surfaces
the failure of the older (last-attempted) v2 lookup, not the v3 one; and
every failure a version lookup produces — missing field, empty result,
transport failure, parse failure — is normalized to
`CantExtractUsdValueError` carrying the description of the original
error, so that is the only failure kind the resolver can surface. -/
theorem uniswap_error_normalization_and_last_error (o3 o2 : SubgraphOutcome) :
    (∀ e3 e2, UniswapPriceProvider.get_usd_value_of_transaction o3
        = .error e3 →
      UniswapPriceProvider.get_usd_value_of_transaction o2 = .error e2 →
      UniswapTransactionValueUsdProvider.get_usd_value_of_transaction o3 o2
        = ([.v3, .v2], .error e2)) ∧
    ∀ (o : SubgraphOutcome) (e : PriceError),
      UniswapPriceProvider.get_usd_value_of_transaction o = .error e →
      ∃ c : PyCause, e = .cantExtractUsdValue c.describe := by
  constructor
  · intro e3 e2 h3 h2
    simp [UniswapTransactionValueUsdProvider.get_usd_value_of_transaction,
      h3, h2]
  · intro o e h
    cases ho : UniswapPriceProvider.get_price_from_subgraph o with
    | ok v =>
      simp [UniswapPriceProvider.get_usd_value_of_transaction, ho] at h
    | error c =>
      refine ⟨c, ?_⟩
      simp [UniswapPriceProvider.get_usd_value_of_transaction, ho] at h
      exact h.symm

/-- Witness for C6: v3 fails on a result without the "swaps" key, v2
fails on a transport error "boom"; the composite surfaces the v2 failure,
normalized to `CantExtractUsdValueError` carrying "boom". -/
theorem uniswap_error_normalization_witness :
    UniswapTransactionValueUsdProvider.get_usd_value_of_transaction
      (.result false []) (.execError "boom")
      = ([.v3, .v2], .error (.cantExtractUsdValue "boom")) :=
  (uniswap_error_normalization_and_last_error (.result false [])
      (.execError "boom")).1
    (.cantExtractUsdValue (PyCause.describe .missingDataCause))
    (.cantExtractUsdValue "boom") rfl rfl

/-- C8: `get_price_of_token` requests the pair formed by upper-casing the
symbol and appending the fixed suffix USDT over the window
`[at_time, at_time + 1 minute]` (in milliseconds) with interval "1m" and
limit 1, and returns the 5th element (index 4) of the first candle,
converted from string to float. -/
theorem binance_request_and_close_extraction (sym : String) (t : Int)
    (candle : List String) (rest : List (List String)) (s : String)
    (v : Rat) (h4 : candle[4]? = some s) (hp : parseDecimal s = some v) :
    (BinancePriceProvider.get_price_of_token sym t (.ok (candle :: rest))).1
      = ⟨pyUpper sym ++ "USDT", "1m", t * 1000, (t + 60) * 1000, 1⟩ ∧
    (BinancePriceProvider.get_price_of_token sym t (.ok (candle :: rest))).2
      = .ok v := by
  constructor
  · rfl
  · simp [BinancePriceProvider.get_price_of_token, h4, hp]

/-- Witness for C8: symbol "eth" at time 1000 with the single candle
`[ts, open, high, low, "1850.23", vol]` produces the request parameter
"ETHUSDT" with the window [1000000 ms, 1060000 ms] and returns the float
1850.23. -/
theorem binance_request_and_close_extraction_witness :
    (BinancePriceProvider.get_price_of_token "eth" 1000
      (.ok [["1690000000000", "1849.1", "1851.0", "1848.0", "1850.23",
        "100"]])).1
      = ⟨"ETHUSDT", "1m", 1000000, 1060000, 1⟩ ∧
    (BinancePriceProvider.get_price_of_token "eth" 1000
      (.ok [["1690000000000", "1849.1", "1851.0", "1848.0", "1850.23",
        "100"]])).2
      = .ok (185023 / 100 : Rat) := by
  have hp : parseDecimal "1850.23" = some (185023 / 100 : Rat) := by
    have hparts : parseDecimalParts "1850.23" = some (1850, 23, 2) := by
      decide
    rw [parseDecimal, hparts]
    norm_num
  have h := binance_request_and_close_extraction "eth" 1000
    ["1690000000000", "1849.1", "1851.0", "1848.0", "1850.23", "100"] []
    "1850.23" (185023 / 100) (by decide) hp
  exact ⟨h.1.trans (by decide), h.2⟩

/-- C9: every failure of `get_price_of_token` — transport error, empty
candle list, too-short candle, or close-price parse failure — surfaces as
`MissingDataError` carrying the original cause; no other failure kind is
possible. -/
theorem binance_failures_normalized (sym : String) (t : Int)
    (o : BinanceOutcome) (e : PriceError) :
    (BinancePriceProvider.get_price_of_token sym t o).2 = .error e →
    ∃ c : PyCause, e = .missingData (some c) := by
  intro h
  cases o with
  | err s =>
    refine ⟨.requestError s, ?_⟩
    simp [BinancePriceProvider.get_price_of_token] at h
    exact h.symm
  | ok candles =>
    cases candles with
    | nil =>
      refine ⟨.indexError, ?_⟩
      simp [BinancePriceProvider.get_price_of_token] at h
      exact h.symm
    | cons candle rest =>
      cases h4 : candle[4]? with
      | none =>
        refine ⟨.indexError, ?_⟩
        simp [BinancePriceProvider.get_price_of_token, h4] at h
        exact h.symm
      | some s =>
        cases hp : parseDecimal s with
        | none =>
          refine ⟨.valueError s, ?_⟩
          simp [BinancePriceProvider.get_price_of_token, h4, hp] at h
          exact h.symm
        | some v =>
          simp [BinancePriceProvider.get_price_of_token, h4, hp] at h

/-- Witness for C9: the empty candle response fails with
`MissingDataError` carrying the index error as its cause. -/
theorem binance_failures_normalized_witness :
    ∃ c : PyCause,
      PriceError.missingData (some PyCause.indexError)
        = .missingData (some c) :=
  binance_failures_normalized "eth" 1000 (.ok [])
    (.missingData (some .indexError)) (by decide)
